import Mathlib

set_option maxRecDepth 4000

/-
Verification of the array-artifact pipeline of the dark-matter web front end
(src/frontend2/src/app.rs): the NPY codec, the artifact resolver in load_npy,
the inference orchestration in run_model, the galaxy-grid writer in
save_galaxy_data, and the precompute cache wired into the HomePage component.

Machine integers are embedded as natural numbers; 32-bit float values are
represented by their IEEE-754 bit patterns (naturals below 2 to the 32), which
is faithful because the codec only moves bytes and never performs float
arithmetic.  Byte buffers are lists of naturals below 256.
-/

/-- Embeds struct NpyData (app.rs lines 11-17): a flat data buffer of 32-bit
values plus its shape. -/
structure NpyData where
  data : List Nat
  shape : List Nat
  deriving DecidableEq, Repr

/-- The NPY magic bytes b"\x93NUMPY" (app.rs line 280 and 365). -/
def npyMagic : List Nat := [147, 78, 85, 77, 80, 89]

/-- The exact bytes of the hand-written header literal shared by
save_galaxy_data (app.rs line 288) and generate_npy_data (app.rs line 373):
the 63-character dictionary text followed by 77 trailing spaces, 140 bytes in
all. -/
def headerDictBytes : List Nat :=
  [123, 39, 100, 101, 115, 99, 114, 39, 58, 32, 39, 60, 102, 52, 39, 44, 32, 39, 102, 111,
   114, 116, 114, 97, 110, 95, 111, 114, 100, 101, 114, 39, 58, 32, 70, 97, 108, 115, 101, 44,
   32, 39, 115, 104, 97, 112, 101, 39, 58, 32, 40, 54, 52, 44, 32, 54, 52, 44, 32, 54,
   52, 41, 125, 32, 32, 32, 32, 32, 32, 32, 32, 32, 32, 32, 32, 32, 32, 32, 32, 32,
   32, 32, 32, 32, 32, 32, 32, 32, 32, 32, 32, 32, 32, 32, 32, 32, 32, 32, 32, 32,
   32, 32, 32, 32, 32, 32, 32, 32, 32, 32, 32, 32, 32, 32, 32, 32, 32, 32, 32, 32,
   32, 32, 32, 32, 32, 32, 32, 32, 32, 32, 32, 32, 32, 32, 32, 32, 32, 32, 32, 32]

/-- Little-endian u16 byte pair, as in header_len.to_le_bytes() (app.rs 291). -/
def toLE2 (v : Nat) : List Nat := [v % 256, v / 256 % 256]

/-- Little-endian 4-byte encoding of a 32-bit value, as in val.to_le_bytes()
applied to the bit pattern of an f32 (app.rs 296 and 381). -/
def toLE4 (v : Nat) : List Nat :=
  [v % 256, v / 256 % 256, v / 65536 % 256, v / 16777216 % 256]

/-- Embeds the manual NPY writer duplicated verbatim in save_galaxy_data
(app.rs 277-297) and generate_npy_data (app.rs 362-382): magic, version bytes
1 and 0, little-endian u16 length of the fixed header literal, the header
literal itself, then each value as little-endian bytes.  The header text is a
constant: the writer declares shape (64, 64, 64) no matter what artifact it is
given. -/
def encodeNpy (a : NpyData) : List Nat :=
  npyMagic ++ [1, 0] ++ toLE2 headerDictBytes.length ++ headerDictBytes
    ++ a.data.flatMap toLE4

/-- Reads exactly n bytes from the front of a buffer, returning them and the
remainder, or none if the buffer is too short. -/
def readExact : Nat → List Nat → Option (List Nat × List Nat)
  | 0, l => some ([], l)
  | _ + 1, [] => none
  | n + 1, b :: l =>
    match readExact n l with
    | some (xs, r) => some (b :: xs, r)
    | none => none

/-- Reconstructs a 32-bit value from four little-endian bytes. -/
def fromLE4 (b0 b1 b2 b3 : Nat) : Nat := b0 + 256 * b1 + 65536 * b2 + 16777216 * b3

/-- Decodes a payload as consecutive little-endian 4-byte groups; none when
the byte count is not a multiple of 4. -/
def bytesToWords : List Nat → Option (List Nat)
  | [] => some []
  | b0 :: b1 :: b2 :: b3 :: rest =>
    match bytesToWords rest with
    | some ws => some (fromLE4 b0 b1 b2 b3 :: ws)
    | none => none
  | _ => none

/-- ASCII decimal digit test on a byte value. -/
def isDigit (b : Nat) : Bool := 48 ≤ b && b ≤ 57

/-- Splits the leading run of ASCII digits off a byte list. -/
def takeDigits : List Nat → List Nat × List Nat
  | [] => ([], [])
  | b :: r =>
    if isDigit b then
      let p := takeDigits r
      (b :: p.1, p.2)
    else ([], b :: r)

/-- Numeric value of a list of ASCII digit bytes. -/
def digitsVal (ds : List Nat) : Nat := ds.foldl (fun acc d => 10 * acc + (d - 48)) 0

/-- Parses the dimension list of a Python tuple after its opening parenthesis:
either a closing parenthesis at once (empty tuple), or decimal numbers
separated by comma-space, with an optional trailing comma before the closing
parenthesis as numpy prints for 1-tuples.  Returns the dimensions and the
bytes after the closing parenthesis.  The first argument is recursion fuel. -/
def parseDims : Nat → List Nat → Option (List Nat × List Nat)
  | 0, _ => none
  | fuel + 1, l =>
    match l with
    | 41 :: rest => some ([], rest)
    | _ =>
      let ds := (takeDigits l).1
      let r1 := (takeDigits l).2
      if ds = [] then none
      else
        match r1 with
        | 41 :: rest => some ([digitsVal ds], rest)
        | 44 :: 41 :: rest => some ([digitsVal ds], rest)
        | 44 :: 32 :: r2 =>
          match parseDims fuel r2 with
          | some (ns, rest) => some (digitsVal ds :: ns, rest)
          | none => none
        | _ => none

/-- The fixed text the header dictionary must start with, up to and including
the opening parenthesis of the shape tuple: descr declared as the 4-byte
little-endian float, fortran_order declared False (row-major), then the shape
key. -/
def headerKeyLead : List Nat :=
  [123, 39, 100, 101, 115, 99, 114, 39, 58, 32, 39, 60, 102, 52, 39, 44, 32, 39, 102, 111,
   114, 116, 114, 97, 110, 95, 111, 114, 100, 101, 114, 39, 58, 32, 70, 97, 108, 115, 101, 44,
   32, 39, 115, 104, 97, 112, 101, 39, 58, 32, 40]

/-- Drops trailing padding bytes (spaces and newlines) from a header. -/
def dropPadding (l : List Nat) : List Nat :=
  (l.reverse.dropWhile (fun b => b == 32 || b == 10)).reverse

/-- Strips an expected literal sequence off the front of a buffer. -/
def stripLead : List Nat → List Nat → Option (List Nat)
  | [], l => some l
  | _ :: _, [] => none
  | p :: ps, b :: l => if p = b then stripLead ps l else none

/-- Product of a shape, left fold as in product(shape). -/
def listProd (l : List Nat) : Nat := l.foldl (fun a b => a * b) 1

/-- Modelled from the spec: the NPY header parser lives in the npyz crate,
an external dependency whose source is not part of this repository.  This
parser follows the codec contract of the spec, sections 4.1 and 6: the header
text, with space and newline padding removed, must declare the descriptor as
the little-endian 4-byte float, fortran_order False, and a shape tuple of
non-negative integers, and end with the closing brace.  Returns the shape. -/
def parseHeaderShape (header : List Nat) : Option (List Nat) :=
  match stripLead headerKeyLead (dropPadding header) with
  | none => none
  | some r1 =>
    match parseDims (r1.length + 1) r1 with
    | none => none
    | some (dims, r2) => if r2 = [125] then some dims else none

/-- Modelled from the spec: decoder for the NPY binary layout (spec sections
4.1 and 6), standing in for npyz::NpyFile used by load_npy (app.rs 212-228)
and run_model (app.rs 136-152), whose source is not in this repository.
Validates magic and version 1.0, reads the little-endian u16 header length,
parses the header, then reads the payload as little-endian 32-bit values and
requires the value count to equal the product of the shape. -/
def decodeNpy (bytes : List Nat) : Except String NpyData :=
  match readExact 6 bytes with
  | none => .error "Failed to parse npy: truncated magic"
  | some (m, r1) =>
    if m = npyMagic then
      match readExact 2 r1 with
      | none => .error "Failed to parse npy: truncated version"
      | some (v, r2) =>
        if v = [1, 0] then
          match readExact 2 r2 with
          | none => .error "Failed to parse npy: truncated header length"
          | some (hl, r3) =>
            match readExact (hl.headI + 256 * hl.tail.headI) r3 with
            | none => .error "Failed to parse npy: truncated header"
            | some (header, payload) =>
              match parseHeaderShape header with
              | none => .error "Failed to parse npy: bad header"
              | some shape =>
                match bytesToWords payload with
                | none => .error "Failed to read npy data as f32: truncated payload"
                | some ws =>
                  if ws.length = listProd shape then .ok ⟨ws, shape⟩
                  else .error "Failed to read npy data as f32: length mismatch"
        else .error "Failed to parse npy: unsupported version"
    else .error "Failed to parse npy: bad magic"

/-
Artifact resolver: the byte-fetching stage of load_npy (app.rs 164-208).
The filesystem read and the remote fetch are embedded as explicit outcome
parameters; the function mirrors the control flow of the source.
-/

/-- Outcome of the reqwest::get call in load_npy: either a response whose
status is a success together with the result of reading its body, a response
with a non-success status rendered as text, or a connection-level error. -/
inductive RemoteOutcome where
  | success (body : Except String (List Nat))
  | httpStatus (statusText : String)
  | connError (e : String)
  deriving Repr

/-- Embeds the byte-resolution stage of load_npy (app.rs 170-208): try the
local file run_id.npy first; on a local error fall back to the API.  Returns
the resolved bytes or the error message the source builds, paired with a flag
recording whether the network was attempted at all.  Note the source builds
the total-failure message from the inner match binder e of the reqwest error
(app.rs 201-202), which shadows the filesystem error bound at app.rs 178:
both format slots receive the remote error and the local cause is lost; this
embedding reproduces that faithfully. -/
def loadNpyBytes (run_id : String) (localRead : Except String (List Nat))
    (remote : RemoteOutcome) : Except String (List Nat) × Bool :=
  match localRead with
  | .ok bytes => (.ok bytes, false)
  | .error _ =>
    match remote with
    | .success body =>
      match body with
      | .ok bytes => (.ok bytes, true)
      | .error e => (.error ( "Failed to read response body: " ++ e), true)
    | .httpStatus statusText =>
      (.error ( "API returned non-success status: " ++ statusText), true)
    | .connError e =>
      (.error ( "Failed to read " ++ run_id ++ ".npy: " ++ e
        ++ ", and API request failed: " ++ e), true)

/-- Embeds load_npy (app.rs 164-232): resolve the bytes, then parse them as
an NPY file. -/
def load_npy (run_id : String) (localRead : Except String (List Nat))
    (remote : RemoteOutcome) : Except String NpyData :=
  match (loadNpyBytes run_id localRead remote).1 with
  | .error e => .error e
  | .ok bytes => decodeNpy bytes

/-
Inference orchestrator: run_model (app.rs 36-157).  The filesystem and the
child process are embedded as an explicit world of outcomes; the function
mirrors the step structure of the source.
-/

/-- Captured outcome of the python child process (std::process::Output):
whether the status was a success, the Display rendering of the status (for
exit code 1 this is the text "exit status: 1"), and the captured streams. -/
structure ProcOutput where
  success : Bool
  statusText : String
  stdoutText : String
  stderrText : String
  deriving Repr

/-- The outcomes of every external interaction run_model performs, in source
order: existence and content of the input file, the write of user_input.npy,
the launch of the python script, and existence and content of output.npy. -/
structure RunWorld where
  inputExists : Bool
  inputRead : Except String (List Nat)
  writeInput : Except String Unit
  launch : Except String ProcOutput
  outputExists : Bool
  outputRead : Except String (List Nat)
  deriving Repr

/-- Embeds run_model (app.rs 36-157): check the input exists, read it, write
user_input.npy, run the python script, fail on a non-zero exit with a message
carrying only the status text (the captured stderr is printed to the server
log at app.rs 101-104 but not put into the error), fail when output.npy does
not exist after a successful exit, else read and decode output.npy. -/
def run_model (input_npy_path : String) (w : RunWorld) : Except String NpyData :=
  if w.inputExists then
    match w.inputRead with
    | .error e => .error ( "Failed to read input file: " ++ e)
    | .ok _ =>
      match w.writeInput with
      | .error e => .error ( "Failed to write user_input.npy: " ++ e)
      | .ok _ =>
        match w.launch with
        | .error e => .error ( "Failed to execute python script: " ++ e)
        | .ok out =>
          if out.success then
            if w.outputExists then
              match w.outputRead with
              | .error e => .error ( "Failed to read output.npy: " ++ e)
              | .ok bytes => decodeNpy bytes
            else .error "Python script did not create output.npy file"
          else .error ( "Python script failed with exit code: " ++ out.statusText)
  else .error ( "Input file not found: " ++ input_npy_path)

/-
Precompute cache: the HomePage component state (app.rs 436-451) and the two
button handlers (app.rs 556-652).  The relevant reactive state is the
cached_model_output slot and the model_running flag.  Orchestration results
are identified by the generation number of the Place Galaxies click whose
input the task was spawned for; each in-flight run_model call is recorded in
a pending list tagged with that generation.  The client is single-threaded
wasm, so a click handler runs atomically between suspension points, which the
step function reflects.
-/

/-- The HomePage state observed by the cache claims: the generation counter
(number of Place Galaxies submissions so far, a specification ghost), the
cached_model_output slot (app.rs 451) holding the generation whose result it
stores, the model_running flag (app.rs 447), the generations with a
background run_model in flight (spawned at app.rs 579), the generations with
a synchronous run_model in flight (spawned at app.rs 620), and a running
count of run_model invocations. -/
structure UiState where
  gen : Nat
  cached_model_output : Option Nat
  model_running : Bool
  bgPending : List Nat
  syncPending : List Nat
  runCalls : Nat
  deriving DecidableEq, Repr

/-- Events driving the HomePage state: the Place Galaxies click, completion
or failure of a background run_model call for a generation, the Run Model
click, and completion or failure of a synchronous run_model call. -/
inductive UiEvent where
  | clickPlaceGalaxies
  | bgComplete (g : Nat)
  | bgFail (g : Nat)
  | clickRunModel
  | syncComplete (g : Nat)
  | syncFail (g : Nat)
  deriving DecidableEq, Repr

/-- Observable effect of a step: nothing, the result of generation g applied
to the visualization (set_opacities_from_densities), or a fresh synchronous
orchestration started. -/
inductive UiOutput where
  | quiet
  | applied (g : Nat)
  | started
  deriving DecidableEq, Repr

/-- Initial HomePage state (app.rs 447-451): nothing cached, not running. -/
def uiInit : UiState :=
  { gen := 0, cached_model_output := none, model_running := false,
    bgPending := [], syncPending := [], runCalls := 0 }

/-- One step of the HomePage handlers.

clickPlaceGalaxies (app.rs 558-595): saves the galaxy grid and sneakily
spawns a background run_model; the cached slot is not reset and no
generation tag is recorded anywhere in the source.

bgComplete (app.rs 585-589): the background closure stores its result into
cached_model_output unconditionally; bgFail (app.rs 590-592) only logs.

clickRunModel (app.rs 601-648): ignored while the button is disabled by
model_running; if cached_model_output holds a result it is applied
immediately and no run_model call is made; otherwise a synchronous run_model
is spawned with model_running set.

syncComplete and syncFail (app.rs 628-645): the synchronous closure applies
or logs its result, never writes the cached slot, and clears model_running. -/
def uiStep (s : UiState) : UiEvent → UiState × UiOutput
  | .clickPlaceGalaxies =>
    ({ s with gen := s.gen + 1, bgPending := (s.gen + 1) :: s.bgPending,
              runCalls := s.runCalls + 1 }, .quiet)
  | .bgComplete g =>
    if g ∈ s.bgPending then
      ({ s with bgPending := s.bgPending.erase g, cached_model_output := some g }, .quiet)
    else (s, .quiet)
  | .bgFail g =>
    if g ∈ s.bgPending then ({ s with bgPending := s.bgPending.erase g }, .quiet)
    else (s, .quiet)
  | .clickRunModel =>
    if s.model_running then (s, .quiet)
    else
      match s.cached_model_output with
      | some g => (s, .applied g)
      | none =>
        ({ s with model_running := true, syncPending := s.gen :: s.syncPending,
                  runCalls := s.runCalls + 1 }, .started)
  | .syncComplete g =>
    if g ∈ s.syncPending then
      ({ s with syncPending := s.syncPending.erase g, model_running := false }, .applied g)
    else (s, .quiet)
  | .syncFail g =>
    if g ∈ s.syncPending then
      ({ s with syncPending := s.syncPending.erase g, model_running := false }, .quiet)
    else (s, .quiet)

/-- Runs a sequence of events from a state, keeping only the state. -/
def uiExec (s : UiState) : List UiEvent → UiState
  | [] => s
  | e :: es => uiExec (uiStep s e).1 es

/-
Galaxy grid writer: the JSON-to-grid stage of save_galaxy_data
(app.rs 243-274).
-/

/-- A JSON scalar as seen through the two serde_json accessors the source
uses: as_f64 and as_u64.  The numeric value behind as_f64 is modelled as a
rational, which is exact for everything the grid claims depend on. -/
structure JElem where
  asF64 : Option ℚ
  asU64 : Option Nat
  deriving DecidableEq, Repr

/-- A JSON object entry value in the galaxy map: either an array of scalars
(as_array succeeds) or anything else. -/
inductive JVal where
  | arr (elems : List JElem)
  | nonArray
  deriving DecidableEq, Repr

/-- Extraction of density, x, y, z from a galaxy entry array with the
unwrap_or defaults of the source (app.rs 261-264). -/
def entryDensity (elems : List JElem) : ℚ := ((elems.getD 0 ⟨none, none⟩).asF64).getD (-1)

/-- The x coordinate of a galaxy entry, as_u64 with default 0 (app.rs 262). -/
def entryX (elems : List JElem) : Nat := ((elems.getD 1 ⟨none, none⟩).asU64).getD 0

/-- The y coordinate of a galaxy entry, as_u64 with default 0 (app.rs 263). -/
def entryY (elems : List JElem) : Nat := ((elems.getD 2 ⟨none, none⟩).asU64).getD 0

/-- The z coordinate of a galaxy entry, as_u64 with default 0 (app.rs 264). -/
def entryZ (elems : List JElem) : Nat := ((elems.getD 3 ⟨none, none⟩).asU64).getD 0

/-- Processes one galaxy entry against the grid (app.rs 257-273): entries
that are not arrays or have fewer than 4 elements are skipped; otherwise
density, x, y, z are extracted with the unwrap_or defaults of the source and
the cell is written only when all three coordinates are below 64. -/
def galaxyStep (grid : List ℚ) : JVal → List ℚ
  | .nonArray => grid
  | .arr elems =>
    if 4 ≤ elems.length then
      if entryX elems < 64 ∧ entryY elems < 64 ∧ entryZ elems < 64 then
        grid.set (entryX elems * 64 * 64 + entryY elems * 64 + entryZ elems)
          (entryDensity elems)
      else grid
    else grid

/-- Embeds the grid-filling loop of save_galaxy_data (app.rs 253-274): a
64 by 64 by 64 buffer initialized to -1.0, folded over the object entries. -/
def galaxyGrid (entries : List JVal) : List ℚ :=
  entries.foldl galaxyStep (List.replicate (64 * 64 * 64) (-1))

/-- Whether a galaxy entry writes to flat cell i: it must be an array of at
least 4 elements whose extracted coordinates pass the bounds guard and index
to i. -/
def targetsCell (v : JVal) (i : Nat) : Bool :=
  match v with
  | .nonArray => false
  | .arr elems =>
    if 4 ≤ elems.length then
      decide (entryX elems < 64 ∧ entryY elems < 64 ∧ entryZ elems < 64 ∧
        entryX elems * 64 * 64 + entryY elems * 64 + entryZ elems = i)
    else false

/-- Embeds the rest of save_galaxy_data (app.rs 276-303): the filled grid is
written to user_input.npy through the shared manual NPY writer. -/
def save_galaxy_npy (entries : List JVal) (encodeCell : ℚ → Nat) : List Nat :=
  encodeNpy ⟨(galaxyGrid entries).map encodeCell, [64, 64, 64]⟩

/-- The serialization discipline the disabled button actually provides: at
most one synchronous run_model is in flight, and while the button is enabled
none is. -/
def syncSerialized (s : UiState) : Prop :=
  s.syncPending.length ≤ 1 ∧ (s.model_running = false → s.syncPending = [])

/-- Concrete galaxy entries for the safety witness: an entry whose x
coordinate is 64 (out of range), a short entry, and a non-array entry. -/
def galaxyWitnessEntries : List JVal :=
  [.arr [⟨some 5, none⟩, ⟨none, some 64⟩, ⟨none, some 0⟩, ⟨none, some 0⟩],
   .arr [⟨some 5, none⟩], .nonArray]

/-
Codec lemmas and round trip.
-/

/-- readExact with the exact length of a known front segment splits it off. -/
theorem readExact_append (l r : List Nat) : readExact l.length (l ++ r) = some (l, r) := by
  induction l with
  | nil => rfl
  | cons b t ih => simp [readExact, ih]

/-- Decoding the little-endian bytes of a 32-bit value gives the value back. -/
theorem fromLE4_toLE4 (v : Nat) (h : v < 4294967296) :
    fromLE4 (v % 256) (v / 256 % 256) (v / 65536 % 256) (v / 16777216 % 256) = v := by
  unfold fromLE4
  omega

/-- Payload round trip: grouping the concatenated little-endian bytes of a
list of 32-bit values recovers the list. -/
theorem bytesToWords_flatMap (l : List Nat) (h : ∀ v ∈ l, v < 4294967296) :
    bytesToWords (l.flatMap toLE4) = some l := by
  induction l with
  | nil => rfl
  | cons v t ih =>
    have hv : v < 4294967296 := h v (List.mem_cons_self v t)
    have ht : ∀ w ∈ t, w < 4294967296 := fun w hw => h w (List.mem_cons_of_mem v hw)
    have hflat : (v :: t).flatMap toLE4
        = v % 256 :: v / 256 % 256 :: v / 65536 % 256 :: v / 16777216 % 256
          :: t.flatMap toLE4 := by
      simp [List.flatMap_cons, toLE4]
    rw [hflat]
    unfold bytesToWords
    rw [ih ht, fromLE4_toLE4 v hv]

/-- Specialization of readExact_append to the magic segment. -/
theorem readExact_magic (r : List Nat) : readExact 6 (npyMagic ++ r) = some (npyMagic, r) :=
  readExact_append npyMagic r

/-- Specialization of readExact_append to the version bytes. -/
theorem readExact_version (r : List Nat) : readExact 2 ([1, 0] ++ r) = some ([1, 0], r) :=
  readExact_append [1, 0] r

/-- Specialization of readExact_append to the header length bytes. -/
theorem readExact_hlen (r : List Nat) : readExact 2 ([140, 0] ++ r) = some ([140, 0], r) :=
  readExact_append [140, 0] r

/-- Specialization of readExact_append to the header literal. -/
theorem readExact_header (r : List Nat) :
    readExact 140 (headerDictBytes ++ r) = some (headerDictBytes, r) :=
  readExact_append headerDictBytes r

/-- The header literal parses to the declared shape (64, 64, 64). -/
theorem parseHeaderShape_headerDict : parseHeaderShape headerDictBytes = some [64, 64, 64] := by
  decide

/-- Round trip of the codec at the only shape the writer emits. -/
theorem decodeNpy_encodeNpy (data : List Nat) (hlen : data.length = 262144)
    (hval : ∀ v ∈ data, v < 4294967296) :
    decodeNpy (encodeNpy ⟨data, [64, 64, 64]⟩) = .ok ⟨data, [64, 64, 64]⟩ := by
  have he : encodeNpy ⟨data, [64, 64, 64]⟩
      = npyMagic ++ ([1, 0] ++ ([140, 0] ++ (headerDictBytes ++ data.flatMap toLE4))) := by
    simp [encodeNpy, toLE2]
    decide
  rw [he]
  unfold decodeNpy
  rw [readExact_magic]
  simp only [if_pos rfl]
  rw [readExact_version]
  simp only [if_pos rfl]
  rw [readExact_hlen]
  simp only [List.headI, List.tail_cons, Nat.mul_zero, Nat.add_zero]
  rw [readExact_header]
  simp only [parseHeaderShape_headerDict]
  rw [bytesToWords_flatMap data hval]
  simp only [hlen, listProd]
  norm_num

/-
Galaxy grid lemmas.
-/

/-- One galaxy entry never changes the size of the grid. -/
theorem galaxyStep_length (grid : List ℚ) (v : JVal) :
    (galaxyStep grid v).length = grid.length := by
  cases v with
  | arr elems =>
    simp only [galaxyStep]
    split_ifs <;> simp
  | nonArray => rfl

/-- Folding any entry list never changes the size of the grid. -/
theorem galaxyFold_length (es : List JVal) :
    ∀ grid : List ℚ, (es.foldl galaxyStep grid).length = grid.length := by
  induction es with
  | nil => intro grid; rfl
  | cons v t ih => intro grid; rw [List.foldl_cons, ih, galaxyStep_length]

/-- An entry that does not target cell i leaves cell i unchanged. -/
theorem galaxyStep_untouched (grid : List ℚ) (v : JVal) (i : Nat)
    (h : targetsCell v i = false) : (galaxyStep grid v)[i]? = grid[i]? := by
  cases v with
  | arr elems =>
    by_cases hlen : 4 ≤ elems.length
    · by_cases hb : entryX elems < 64 ∧ entryY elems < 64 ∧ entryZ elems < 64
      · have hne : entryX elems * 64 * 64 + entryY elems * 64 + entryZ elems ≠ i := by
          simp only [targetsCell, hlen, if_true, decide_eq_false_iff_not] at h
          intro he
          exact h ⟨hb.1, hb.2.1, hb.2.2, he⟩
        simp [galaxyStep, hlen, hb, List.getElem?_set_ne hne]
      · simp [galaxyStep, hlen, hb]
    · simp [galaxyStep, hlen]
  | nonArray => rfl

/-- A cell targeted by no entry of the list is unchanged by the whole fold. -/
theorem galaxyFold_untouched (es : List JVal) :
    ∀ (grid : List ℚ) (i : Nat), (∀ v ∈ es, targetsCell v i = false) →
      (es.foldl galaxyStep grid)[i]? = grid[i]? := by
  induction es with
  | nil => intro grid i _; rfl
  | cons v t ih =>
    intro grid i h
    rw [List.foldl_cons, ih _ i (fun w hw => h w (List.mem_cons_of_mem v hw)),
      galaxyStep_untouched grid v i (h v (List.mem_cons_self v t))]

/-
Precompute cache lemmas.
-/

/-- A singleton list is forced when a member exists and the length is at
most one. -/
theorem eq_singleton_of_mem_of_len_le_one {g : Nat} {l : List Nat}
    (h1 : l.length ≤ 1) (h2 : g ∈ l) : l = [g] := by
  cases l with
  | nil => cases h2
  | cons a t =>
    cases t with
    | nil => simp_all
    | cons b u => simp at h1

/-- Every handler step preserves the synchronous serialization discipline. -/
theorem uiStep_syncSerialized (s : UiState) (e : UiEvent) (h : syncSerialized s) :
    syncSerialized (uiStep s e).1 := by
  obtain ⟨h1, h2⟩ := h
  cases e with
  | clickPlaceGalaxies => exact ⟨h1, h2⟩
  | bgComplete g =>
    by_cases hg : g ∈ s.bgPending <;> simp [uiStep, hg] <;> exact ⟨h1, h2⟩
  | bgFail g =>
    by_cases hg : g ∈ s.bgPending <;> simp [uiStep, hg] <;> exact ⟨h1, h2⟩
  | clickRunModel =>
    by_cases hr : s.model_running
    · simp [uiStep, hr]; exact ⟨h1, h2⟩
    · have he : s.syncPending = [] := h2 (by simpa using hr)
      cases hc : s.cached_model_output with
      | some g => simp [uiStep, hr, hc]; exact ⟨h1, h2⟩
      | none =>
        simp only [uiStep, hr, hc, if_false, Bool.false_eq_true]
        exact ⟨by simp [he], by simp⟩
  | syncComplete g =>
    by_cases hg : g ∈ s.syncPending
    · have : s.syncPending = [g] := eq_singleton_of_mem_of_len_le_one h1 hg
      simp [uiStep, hg, this, List.erase_cons]
      exact ⟨by simp, fun _ => rfl⟩
    · simp [uiStep, hg]; exact ⟨h1, h2⟩
  | syncFail g =>
    by_cases hg : g ∈ s.syncPending
    · have : s.syncPending = [g] := eq_singleton_of_mem_of_len_le_one h1 hg
      simp [uiStep, hg, this, List.erase_cons]
      exact ⟨by simp, fun _ => rfl⟩
    · simp [uiStep, hg]; exact ⟨h1, h2⟩

/-- Executing any event list preserves the serialization discipline. -/
theorem uiExec_syncSerialized (evs : List UiEvent) :
    ∀ s : UiState, syncSerialized s → syncSerialized (uiExec s evs) := by
  induction evs with
  | nil => intro s h; exact h
  | cons e t ih => intro s h; exact ih _ (uiStep_syncSerialized s e h)

/-
Claim theorems.
-/

/-- C4, counterexample: the round-trip law fails as stated for a valid
single-dimension artifact.  The writer hardcodes the (64, 64, 64) header, so
the one-element artifact of shape [1] encodes to a file declaring 262144
elements with a 4-byte payload, which decode rejects. -/
theorem npy_roundtrip_fails_shape1 :
    decodeNpy (encodeNpy ⟨[0], [1]⟩) ≠ .ok ⟨[0], [1]⟩ := by
  rw [show decodeNpy (encodeNpy ⟨[0], [1]⟩)
      = .error "Failed to read npy data as f32: length mismatch" from rfl]
  exact fun h => Except.noConfusion h

/-- C4, amended: decode of encode is the identity exactly on the artifacts
the program ever writes, those of shape [64, 64, 64] with 262144 values of
32 bits; artifacts of any other shape, including zero-dimension and
single-dimension ones, do not round-trip because the writer hardcodes the
header. -/
theorem npy_roundtrip_64cube (a : NpyData) (hshape : a.shape = [64, 64, 64])
    (hlen : a.data.length = 262144) (hval : ∀ v ∈ a.data, v < 4294967296) :
    decodeNpy (encodeNpy a) = .ok a := by
  obtain ⟨d, sh⟩ := a
  simp only at hshape hlen hval
  subst hshape
  exact decodeNpy_encodeNpy d hlen hval

/-- C4, witness: the all-zero 64 by 64 by 64 artifact round-trips. -/
theorem npy_roundtrip_64cube_witness :
    decodeNpy (encodeNpy ⟨List.replicate 262144 0, [64, 64, 64]⟩)
      = .ok ⟨List.replicate 262144 0, [64, 64, 64]⟩ :=
  npy_roundtrip_64cube ⟨List.replicate 262144 0, [64, 64, 64]⟩ rfl
    (List.length_replicate 262144 0)
    (fun v hv => by rw [List.eq_of_mem_replicate hv]; decide)

/-- C9, counterexample: the emitted header has textual length 140, and
10 + 140 is not a multiple of 64, so the padding convention of the claim does
not hold for any encoded artifact (shown at the empty artifact). -/
theorem npy_header_padding_misaligned :
    encodeNpy ⟨[], []⟩ = npyMagic ++ [1, 0] ++ [140, 0] ++ headerDictBytes
  ∧ headerDictBytes.length = 140
  ∧ (10 + headerDictBytes.length) % 64 ≠ 0 := by
  refine ⟨rfl, by decide, by decide⟩

/-- C9, amended: for every artifact, encode emits the magic bytes, version
1.0, the little-endian length 140, and a header padded with trailing spaces
to textual length 140 (so 10 + header_length is 150, congruent to 22 and not
0 modulo 64), declaring the little-endian 4-byte float descriptor, row-major
order and the fixed shape (64, 64, 64) - the shape of every artifact the
program actually encodes - followed by the little-endian payload; the header
is one the decoder accepts. -/
theorem npy_encode_header_structure (a : NpyData) :
    encodeNpy a
      = npyMagic ++ ([1, 0] ++ ([140, 0] ++ (headerDictBytes ++ a.data.flatMap toLE4)))
  ∧ headerDictBytes.length = 140
  ∧ (10 + headerDictBytes.length) % 64 = 22
  ∧ parseHeaderShape headerDictBytes = some [64, 64, 64] := by
  refine ⟨?_, by decide, by decide, parseHeaderShape_headerDict⟩
  simp [encodeNpy, toLE2]
  decide

/-- C5, confirmed: when the local read of run_id.npy succeeds, resolution
returns exactly the local bytes with no network attempt, whatever the remote
endpoint would have answered; the network flag is raised only on the local
failure path. -/
theorem resolver_local_first (run_id : String) (bytes : List Nat)
    (remote : RemoteOutcome) :
    loadNpyBytes run_id (.ok bytes) remote = (.ok bytes, false)
  ∧ ∀ e : String, (loadNpyBytes run_id (.error e) remote).2 = true := by
  refine ⟨rfl, fun e => ?_⟩
  cases remote with
  | success body => cases body <;> rfl
  | httpStatus t => rfl
  | connError e2 => rfl

set_option maxRecDepth 8000 in
/-- C2, code bug: when both the local read and the remote fetch fail, the
error does not carry both causes.  On a connection-level remote failure the
message slot meant for the filesystem error receives the shadowed reqwest
error (app.rs 201-202), so the local cause is absent from the message; on a
non-success remote status the message carries only the status. -/
theorem resolver_total_failure_loses_local_cause :
    (loadNpyBytes "run0100" (.error "No such file or directory (os error 2)")
        (.connError "error sending request")).1
      = .error "Failed to read run0100.npy: error sending request, and API request failed: error sending request"
  ∧ ¬ ( "os error 2".toList <:+:
        ( "Failed to read run0100.npy: error sending request, and API request failed: error sending request").toList)
  ∧ (loadNpyBytes "run0100" (.error "No such file or directory (os error 2)")
        (.httpStatus "404 Not Found")).1
      = .error "API returned non-success status: 404 Not Found" := by
  refine ⟨rfl, by decide, rfl⟩

set_option maxRecDepth 8000 in
/-- C3, counterexample: on a non-zero exit the returned error carries only
the status display; the captured stderr text is absent from it. -/
theorem run_model_error_lacks_stderr :
    run_model "user_input.npy"
        ⟨true, .ok [], .ok (), .ok ⟨false, "exit status: 1", "", "ValueError: boom"⟩,
          false, .error "unused"⟩
      = .error "Python script failed with exit code: exit status: 1"
  ∧ ¬ ( "ValueError: boom".toList <:+:
        ( "Python script failed with exit code: exit status: 1").toList) := by
  exact ⟨rfl, by decide⟩

/-- C3, amended: on a non-zero exit the orchestration fails with an error
carrying the exit status display (the captured stderr is only logged, not
carried), and the result is independent of the output artifact: the fields
describing output.npy are never consulted. -/
theorem run_model_nonzero_exit (path : String) (w : RunWorld) (out : ProcOutput)
    (hex : w.inputExists = true) (hread : ∃ bs, w.inputRead = Except.ok bs)
    (hwrite : w.writeInput = Except.ok ()) (hlaunch : w.launch = Except.ok out)
    (hfail : out.success = false) :
    run_model path w = .error ( "Python script failed with exit code: " ++ out.statusText)
  ∧ ∀ (oe : Bool) (orv : Except String (List Nat)),
      run_model path { w with outputExists := oe, outputRead := orv }
        = run_model path w := by
  obtain ⟨bs, hbs⟩ := hread
  constructor
  · simp [run_model, hex, hbs, hwrite, hlaunch, hfail]
  · intro oe orv
    simp [run_model, hex, hbs, hwrite, hlaunch, hfail]

/-- C3, witness: a concrete failing world reaching the non-zero-exit error. -/
theorem run_model_nonzero_exit_witness :
    run_model "user_input.npy"
        ⟨true, .ok [], .ok (), .ok ⟨false, "exit status: 1", "", "err"⟩, true, .ok []⟩
      = .error ( "Python script failed with exit code: " ++ "exit status: 1") :=
  (run_model_nonzero_exit "user_input.npy"
    ⟨true, .ok [], .ok (), .ok ⟨false, "exit status: 1", "", "err"⟩, true, .ok []⟩
    ⟨false, "exit status: 1", "", "err"⟩ rfl ⟨[], rfl⟩ rfl rfl rfl).1

/-- C6, confirmed: when the process exits successfully but output.npy does
not exist, the orchestration fails with exactly the missing-output error. -/
theorem run_model_missing_output (path : String) (w : RunWorld) (out : ProcOutput)
    (hex : w.inputExists = true) (hread : ∃ bs, w.inputRead = Except.ok bs)
    (hwrite : w.writeInput = Except.ok ()) (hlaunch : w.launch = Except.ok out)
    (hok : out.success = true) (hmiss : w.outputExists = false) :
    run_model path w = .error "Python script did not create output.npy file" := by
  obtain ⟨bs, hbs⟩ := hread
  simp [run_model, hex, hbs, hwrite, hlaunch, hok, hmiss]

/-- C6, witness: a concrete world where the script exits 0 without writing
output.npy. -/
theorem run_model_missing_output_witness :
    run_model "user_input.npy"
        ⟨true, .ok [], .ok (), .ok ⟨true, "exit status: 0", "", ""⟩, false, .error "unused"⟩
      = .error "Python script did not create output.npy file" :=
  run_model_missing_output "user_input.npy"
    ⟨true, .ok [], .ok (), .ok ⟨true, "exit status: 0", "", ""⟩, false, .error "unused"⟩
    ⟨true, "exit status: 0", "", ""⟩ rfl ⟨[], rfl⟩ rfl rfl rfl rfl

/-- C1, counterexample: submit(A) then submit(B) before the orchestration
for A completes; when it completes, its result is stored in the slot, and
the next Run Model click returns that stale generation-1 result with the
state unchanged, so no fresh orchestration for generation 2 is triggered. -/
theorem stale_result_trace :
    (uiExec uiInit [.clickPlaceGalaxies, .clickPlaceGalaxies, .bgComplete 1]).cached_model_output
      = some 1
  ∧ (uiExec uiInit [.clickPlaceGalaxies, .clickPlaceGalaxies, .bgComplete 1]).gen = 2
  ∧ uiStep (uiExec uiInit [.clickPlaceGalaxies, .clickPlaceGalaxies, .bgComplete 1])
        .clickRunModel
      = (uiExec uiInit [.clickPlaceGalaxies, .clickPlaceGalaxies, .bgComplete 1],
         .applied 1) := by
  refine ⟨rfl, rfl, by decide⟩

/-- C1, amended: the background completion closure stores its result in
cached_model_output unconditionally - there is no generation tag anywhere -
so the completion of a superseded generation g (spawned before the latest
submission) is stored, and a subsequent Run Model click returns that stale
result while leaving the state unchanged, triggering no fresh orchestration
for the current input. -/
theorem stale_result_stored_and_returned (s : UiState) (g : Nat)
    (hg : g ∈ s.bgPending) (_hstale : g < s.gen) (hidle : s.model_running = false) :
    (uiStep s (.bgComplete g)).1.cached_model_output = some g
  ∧ uiStep (uiStep s (.bgComplete g)).1 .clickRunModel
      = ((uiStep s (.bgComplete g)).1, .applied g) := by
  constructor
  · simp [uiStep, hg]
  · simp [uiStep, hg, hidle]

/-- C1, witness: the state after the counterexample trace prefix, with the
superseded generation 1 still pending. -/
theorem stale_result_stored_and_returned_witness :
    (uiStep ⟨2, none, false, [2, 1], [], 2⟩ (.bgComplete 1)).1.cached_model_output = some 1
  ∧ uiStep (uiStep ⟨2, none, false, [2, 1], [], 2⟩ (.bgComplete 1)).1 .clickRunModel
      = ((uiStep ⟨2, none, false, [2, 1], [], 2⟩ (.bgComplete 1)).1, .applied 1) :=
  stale_result_stored_and_returned ⟨2, none, false, [2, 1], [], 2⟩ 1
    (by decide) (by decide) rfl

/-- C7, counterexample: Place Galaxies spawns a background run_model; a Run
Model click while it is in flight starts a synchronous run_model immediately
- neither queued nor rejected - so two orchestrations are active against the
same canonical paths. -/
theorem concurrent_orchestrations_trace :
    (uiExec uiInit [.clickPlaceGalaxies]).bgPending = [1]
  ∧ (uiStep (uiExec uiInit [.clickPlaceGalaxies]) .clickRunModel).2 = .started
  ∧ (uiStep (uiExec uiInit [.clickPlaceGalaxies]) .clickRunModel).1.bgPending.length
      + (uiStep (uiExec uiInit [.clickPlaceGalaxies]) .clickRunModel).1.syncPending.length
      = 2 := by
  refine ⟨rfl, rfl, by decide⟩

/-- C7, amended: the source provides no mutual exclusion between the
background precompute and the synchronous trigger - they can run
concurrently against user_input.npy and output.npy - and the only
serialization present is among synchronous runs themselves: the Run Model
button is disabled while one is in flight, so at most one synchronous
run_model is ever active. -/
theorem sync_triggers_serialized (evs : List UiEvent) :
    (uiExec uiInit evs).syncPending.length ≤ 1 :=
  (uiExec_syncSerialized evs uiInit ⟨by simp [uiInit], fun _ => rfl⟩).1

/-- C8, confirmed: whenever the cached slot holds a result and the button is
enabled, the Run Model click applies the cached result, leaves the state
unchanged, and makes no further run_model invocation. -/
theorem cached_fast_path (s : UiState) (g : Nat)
    (hc : s.cached_model_output = some g) (hidle : s.model_running = false) :
    uiStep s .clickRunModel = (s, .applied g)
  ∧ (uiStep s .clickRunModel).1.runCalls = s.runCalls := by
  have h : uiStep s .clickRunModel = (s, .applied g) := by
    simp [uiStep, hc, hidle]
  exact ⟨h, by rw [h]⟩

/-- C8, witness: a concrete Ready state consumed without a second call. -/
theorem cached_fast_path_witness :
    uiStep ⟨1, some 1, false, [], [], 1⟩ .clickRunModel
      = (⟨1, some 1, false, [], [], 1⟩, .applied 1)
  ∧ (uiStep ⟨1, some 1, false, [], [], 1⟩ .clickRunModel).1.runCalls
      = (⟨1, some 1, false, [], [], 1⟩ : UiState).runCalls :=
  cached_fast_path ⟨1, some 1, false, [], [], 1⟩ 1 rfl rfl

/-- C10, confirmed: the grid buffer always has exactly 64 * 64 * 64 cells,
matching the declared shape product; the bounds guard keeps every computed
write index inside the buffer; and any cell no entry targets - in particular
every cell when entries are short arrays or carry coordinates of 64 or more -
keeps the initial value -1.0. -/
theorem save_galaxy_data_safe (entries : List JVal) :
    (galaxyGrid entries).length = listProd [64, 64, 64]
  ∧ (∀ x y z : Nat, x < 64 → y < 64 → z < 64 →
      x * 64 * 64 + y * 64 + z < 64 * 64 * 64)
  ∧ (∀ i : Nat, i < 64 * 64 * 64 → (∀ v ∈ entries, targetsCell v i = false) →
      (galaxyGrid entries)[i]? = some (-1)) := by
  refine ⟨?_, ?_, ?_⟩
  · rw [galaxyGrid, galaxyFold_length, List.length_replicate]
    decide
  · intro x y z hx hy hz
    omega
  · intro i hi hv
    rw [galaxyGrid, galaxyFold_untouched entries _ i hv, List.getElem?_replicate,
      if_pos hi]

/-- C10, witness: the out-of-range and short entries target no cell, so cell
0 keeps -1.0 and the buffer size is unchanged. -/
theorem save_galaxy_data_safe_witness :
    (galaxyGrid galaxyWitnessEntries).length = listProd [64, 64, 64]
  ∧ (galaxyGrid galaxyWitnessEntries)[0]? = some (-1 : ℚ) :=
  ⟨(save_galaxy_data_safe galaxyWitnessEntries).1,
   (save_galaxy_data_safe galaxyWitnessEntries).2.2 0 (by decide) (by decide)⟩
